import Mathlib

/-! ALPN-01 certificate provider (`alpn.go`)

A shallow embedding of `alpn.go` (package `main`): the provider record, its constructor
`NewALPNCertProvider`, the handshake callback `getCertificate` with its helper
`createChallengeCert`, `TLSConfig` and `HTTPHandler`.

Conventions of the embedding.

* Go strings are Lean strings; the code only compares them for equality and for a leading
  substring, so the byte and the character reading of these tests agree.
* A Go pointer that may be nil is an `Option`; a pair `(*T, error)` is a pair of options.
* Calls that leave the package (`log.Printf`, `acme.Client.TLSALPN01ChallengeCert`,
  `http.Error`, the fallback handler) are recorded, in program order, in the run of the
  function that makes them. What `TLSALPN01ChallengeCert` returns is a field of the client:
  the library method is not part of this package, and every theorem holds for every such
  field.
* A method returns a `Run`: how the call ended (returned a value, or panicked on a nil
  receiver dereference), the calls it made, and the receiver after the call.
* The `ClientHelloInfo` of a handshake and the `Request` of an HTTP exchange, with its `URL`,
  are the non-nil values the TLS and HTTP servers hand to their callbacks.
-/

namespace Alpn

/-! ## Errors -/

/-- Go `error` values as the package builds and receives them: `errors.New text`, and
`fmt.Errorf` with a format that ends in the verb for a wrapped error (`before` is the text of
the format in front of that verb). -/
inductive GoError where
  | errorsNew (text : String)
  | fmtErrorf (before : String) (err : GoError)
  deriving DecidableEq, Repr

/-- The `Error()` method: the message of an error. -/
def GoError.Error : GoError → String
  | .errorsNew text => text
  | .fmtErrorf before err => before ++ err.Error

/-- The `Unwrap()` method: the error wrapped by `fmt.Errorf`, if any. -/
def GoError.Unwrap : GoError → Option GoError
  | .errorsNew _ => none
  | .fmtErrorf _ err => some err

/-! ## Library types -/

/-- The type `tls.Certificate`, kept as its chain of DER-encoded certificates (the field
`Certificate [][]byte`, here `Chain`). -/
structure Certificate where
  Chain : List (List Nat)
  deriving DecidableEq, Repr

/-- The type `acme.Client`. `TLSALPN01ChallengeCert token domain` is what the library method
of that name returns on this client: a certificate or an error. The account key the method
reads and the key pair it draws belong to the client, so the result is a function of the
client, the token and the domain. -/
structure Client where
  DirectoryURL : String
  TLSALPN01ChallengeCert : String → String → Except GoError Certificate

/-- The type `acme.Challenge`. -/
structure Challenge where
  URI : String
  Token : String
  Status : String
  deriving DecidableEq, Repr

/-- The type `tls.ClientHelloInfo`, with the two fields the package reads. -/
structure ClientHelloInfo where
  ServerName : String
  SupportedProtos : List String
  deriving DecidableEq, Repr

/-! ## The provider -/

/-- The struct `alpnCertProvider`. -/
structure alpnCertProvider where
  acmeClient : Option Client
  domain : String
  keyAuth : String
  challenge : Option Challenge

/-- A call that leaves the package during a handshake. -/
inductive Event where
  | logPrintf (line : String)
  | TLSALPN01ChallengeCert (token domain : String)
  deriving DecidableEq, Repr

/-- How a call ended. -/
inductive Outcome (α : Type) where
  | returned (value : α)
  | panicked (reason : String)
  deriving DecidableEq, Repr

/-- The run of a method of the provider: its outcome, the outside calls it made in order, and
the receiver as the call leaves it. -/
structure Run (α : Type) where
  outcome : Outcome α
  events : List Event
  provider : alpnCertProvider

/-- The result type `(*tls.Certificate, error)`. -/
abbrev CertResult := Option Certificate × Option GoError

/-- The constructor `NewALPNCertProvider` (alpn.go, lines 29-44). -/
def NewALPNCertProvider (acmeClient : Option Client) (domain keyAuth : String) :
    Option alpnCertProvider × Option GoError :=
  if acmeClient.isNone then
    (none, some (.errorsNew "acme client is required"))
  else if domain = "" then
    (none, some (.errorsNew "domain is required"))
  else if keyAuth = "" then
    (none, some (.errorsNew "keyAuth is required"))
  else
    (some { acmeClient := acmeClient, domain := domain, keyAuth := keyAuth, challenge := none },
      none)

/-- The method `createChallengeCert` (alpn.go, lines 73-88). The token is the fixed
placeholder of the source; the receiver fields `domain` and `keyAuth` are not read. -/
def alpnCertProvider.createChallengeCert (p : alpnCertProvider) (domain : String) :
    Run CertResult :=
  let token := "challenge-token-placeholder"
  match p.acmeClient with
  | none => { outcome := .panicked "nil pointer dereference", events := [], provider := p }
  | some c =>
    match c.TLSALPN01ChallengeCert token domain with
    | .error err =>
      { outcome := .returned
          (none, some (.fmtErrorf "failed to create ALPN-01 challenge certificate: " err)),
        events := [.TLSALPN01ChallengeCert token domain],
        provider := p }
    | .ok cert =>
      { outcome := .returned (some cert, none),
        events := [.TLSALPN01ChallengeCert token domain],
        provider := p }

/-- The loop of `getCertificate` over the protocols still to be inspected. -/
def alpnCertProvider.getCertificateLoop (p : alpnCertProvider) (hi : ClientHelloInfo) :
    List String → Run CertResult
  | [] => { outcome := .returned (none, none), events := [], provider := p }
  | proto :: rest =>
    if proto = "acme-tls/1" then
      let r := p.createChallengeCert hi.ServerName
      { outcome := r.outcome,
        events := .logPrintf ("ALPN-01 challenge detected for domain: " ++ hi.ServerName)
          :: r.events,
        provider := r.provider }
    else
      p.getCertificateLoop hi rest

/-- The method `getCertificate` (alpn.go, lines 58-70). -/
def alpnCertProvider.getCertificate (p : alpnCertProvider) (hi : ClientHelloInfo) :
    Run CertResult :=
  p.getCertificateLoop hi hi.SupportedProtos

/-- The type `tls.Config`, with the two fields the package sets. -/
structure Config where
  NextProtos : List String
  GetCertificate : Option (ClientHelloInfo → Run CertResult)

/-- The method `TLSConfig` (alpn.go, lines 47-55). -/
def alpnCertProvider.TLSConfig (p : alpnCertProvider) : Option Config :=
  some { NextProtos := ["http/1.1", "acme-tls/1"], GetCertificate := some p.getCertificate }

/-! ## The HTTP handler -/

/-- The type `url.URL`, with the field the package reads. -/
structure URL where
  Path : String
  deriving DecidableEq, Repr

/-- The type `http.Request`, with the field the package reads. -/
structure Request where
  Method : String
  URL : URL
  deriving DecidableEq, Repr

/-- An operation on an `http.ResponseWriter`. `httpError error code` is the library call
`http.Error(w, error, code)`. -/
inductive WriterOp where
  | headerSet (key value : String)
  | writeHeader (code : Nat)
  | write (body : String)
  | httpError (error : String) (code : Nat)
  deriving DecidableEq, Repr

/-- An `http.ResponseWriter`: the operations applied to it so far, oldest first. -/
abbrev ResponseWriter := List WriterOp

/-- The interface `http.Handler`: `ServeHTTP w r` is the writer as the handler leaves it. -/
structure Handler where
  ServeHTTP : ResponseWriter → Request → ResponseWriter

/-- The constant `http.StatusNotFound`. -/
def StatusNotFound : Nat := 404

/-- The function `strings.HasPrefix`. -/
def stringsHasPrefix (s pre : String) : Bool :=
  pre.data.isPrefixOf s.data

/-- The run of a handler built by `HTTPHandler`: the writer after the call and the calls to
the fallback, each with the writer and the request it was given. -/
structure HandlerRun where
  w : ResponseWriter
  fallbackCalls : List (ResponseWriter × Request)

/-- The body of the function literal in `HTTPHandler` (alpn.go, lines 92-101). -/
def alpnCertProvider.HTTPHandlerFunc (_p : alpnCertProvider) (fallback : Handler)
    (w : ResponseWriter) (r : Request) : HandlerRun :=
  if stringsHasPrefix r.URL.Path "/.well-known/acme-challenge/" then
    { w := w ++ [.httpError "ALPN-01 challenge only" StatusNotFound], fallbackCalls := [] }
  else
    { w := fallback.ServeHTTP w r, fallbackCalls := [(w, r)] }

/-- The method `HTTPHandler` (alpn.go, lines 91-102). -/
def alpnCertProvider.HTTPHandler (p : alpnCertProvider) (fallback : Handler) : Handler :=
  { ServeHTTP := fun w r => (p.HTTPHandlerFunc fallback w r).w }

/-! ## Auxiliary notions used to state the properties -/

/-- Whether an event is a call of the certificate builder `TLSALPN01ChallengeCert`. -/
def Event.isBuilderCall : Event → Bool
  | .TLSALPN01ChallengeCert _ _ => true
  | .logPrintf _ => false

/-- The number of calls of the certificate builder among the events of a run. -/
def builderCalls (events : List Event) : Nat :=
  events.countP Event.isBuilderCall

/-- Two names differ at most in letter case: they agree once every letter is lowered. -/
def sameUpToCase (a b : String) : Prop :=
  a.data.map Char.toLower = b.data.map Char.toLower

instance (a b : String) : Decidable (sameUpToCase a b) :=
  inferInstanceAs (Decidable (a.data.map Char.toLower = b.data.map Char.toLower))

/-- The character codes of a string. -/
def codes (s : String) : List Nat :=
  s.data.map Char.toNat

/-! ## Concrete clients and providers for the examples -/

/-- A client whose builder always succeeds and returns a certificate that spells out the
token and the domain it was given. -/
def echoClient : Client :=
  { DirectoryURL := "https://acme-v02.api.letsencrypt.org/directory",
    TLSALPN01ChallengeCert := fun token domain => .ok { Chain := [codes token, codes domain] } }

/-- A client whose builder always fails. -/
def failingClient : Client :=
  { DirectoryURL := "https://acme-v02.api.letsencrypt.org/directory",
    TLSALPN01ChallengeCert := fun _ _ => .error (.errorsNew "acme: missing account key") }

/-- The provider of the tests, for `example.com` with key authorization `test-key-auth`, on
the client whose builder succeeds. -/
def echoProvider : alpnCertProvider :=
  { acmeClient := some echoClient, domain := "example.com", keyAuth := "test-key-auth",
    challenge := none }

/-- The provider of the tests on the client whose builder fails. -/
def failingProvider : alpnCertProvider :=
  { acmeClient := some failingClient, domain := "example.com", keyAuth := "test-key-auth",
    challenge := none }

/-- A fallback handler that writes a fixed page. -/
def pageHandler : Handler :=
  { ServeHTTP := fun w r => w ++ [.writeHeader 200, .write ("page " ++ r.URL.Path)] }

/-! ## Lemmas on the loop of `getCertificate` -/

/-- The run of the challenge branch of `getCertificate`: the log line, then the run of
`createChallengeCert` on the server name. -/
def alpnCertProvider.challengeRun (p : alpnCertProvider) (hi : ClientHelloInfo) :
    Run CertResult :=
  { outcome := (p.createChallengeCert hi.ServerName).outcome,
    events := .logPrintf ("ALPN-01 challenge detected for domain: " ++ hi.ServerName)
      :: (p.createChallengeCert hi.ServerName).events,
    provider := (p.createChallengeCert hi.ServerName).provider }

/-- The run of the last line of `getCertificate`: nil certificate, nil error, no call. -/
def alpnCertProvider.deferRun (p : alpnCertProvider) : Run CertResult :=
  { outcome := .returned (none, none), events := [], provider := p }

theorem getCertificateLoop_of_not_mem (p : alpnCertProvider) (hi : ClientHelloInfo)
    (protos : List String) (h : "acme-tls/1" ∉ protos) :
    p.getCertificateLoop hi protos = p.deferRun := by
  induction protos with
  | nil => rfl
  | cons proto rest ih =>
    have hne : proto ≠ "acme-tls/1" := fun e => h (by simp [e])
    have hrest : "acme-tls/1" ∉ rest := fun m => h (List.mem_cons_of_mem _ m)
    simp only [alpnCertProvider.getCertificateLoop, if_neg hne]
    exact ih hrest

theorem getCertificateLoop_of_mem (p : alpnCertProvider) (hi : ClientHelloInfo)
    (protos : List String) (h : "acme-tls/1" ∈ protos) :
    p.getCertificateLoop hi protos = p.challengeRun hi := by
  induction protos with
  | nil => simp at h
  | cons proto rest ih =>
    by_cases hp : proto = "acme-tls/1"
    · simp only [alpnCertProvider.getCertificateLoop, if_pos hp]
      rfl
    · have hrest : "acme-tls/1" ∈ rest := by
        rcases List.mem_cons.mp h with e | m
        · exact absurd e.symm hp
        · exact m
      simp only [alpnCertProvider.getCertificateLoop, if_neg hp]
      exact ih hrest

theorem createChallengeCert_provider (p : alpnCertProvider) (domain : String) :
    (p.createChallengeCert domain).provider = p := by
  unfold alpnCertProvider.createChallengeCert
  cases p.acmeClient with
  | none => rfl
  | some c =>
    simp only
    cases c.TLSALPN01ChallengeCert "challenge-token-placeholder" domain <;> rfl

theorem createChallengeCert_of_ok (p : alpnCertProvider) (c : Client) (domain : String)
    (cert : Certificate) (hc : p.acmeClient = some c)
    (hb : c.TLSALPN01ChallengeCert "challenge-token-placeholder" domain = .ok cert) :
    p.createChallengeCert domain =
      { outcome := .returned (some cert, none),
        events := [.TLSALPN01ChallengeCert "challenge-token-placeholder" domain],
        provider := p } := by
  unfold alpnCertProvider.createChallengeCert
  simp only [hc, hb]

theorem createChallengeCert_of_error (p : alpnCertProvider) (c : Client) (domain : String)
    (err : GoError) (hc : p.acmeClient = some c)
    (hb : c.TLSALPN01ChallengeCert "challenge-token-placeholder" domain = .error err) :
    p.createChallengeCert domain =
      { outcome := .returned
          (none, some (.fmtErrorf "failed to create ALPN-01 challenge certificate: " err)),
        events := [.TLSALPN01ChallengeCert "challenge-token-placeholder" domain],
        provider := p } := by
  unfold alpnCertProvider.createChallengeCert
  simp only [hc, hb]

theorem createChallengeCert_of_nil (p : alpnCertProvider) (domain : String)
    (hc : p.acmeClient = none) :
    p.createChallengeCert domain =
      { outcome := .panicked "nil pointer dereference", events := [], provider := p } := by
  unfold alpnCertProvider.createChallengeCert
  simp only [hc]

/-! ## The handshake callback -/

/-- C1. When the offered protocols do not contain "acme-tls/1" (the empty list included),
`getCertificate` returns a nil certificate with a nil error, and it makes no outside call at
all: in particular the certificate builder is not invoked. -/
theorem getCertificate_defers_without_acme_tls (p : alpnCertProvider) (hi : ClientHelloInfo)
    (h : "acme-tls/1" ∉ hi.SupportedProtos) :
    (p.getCertificate hi).outcome = .returned (none, none) ∧
      (p.getCertificate hi).events = [] ∧
      builderCalls (p.getCertificate hi).events = 0 ∧
      ∀ token domain, Event.TLSALPN01ChallengeCert token domain ∉ (p.getCertificate hi).events := by
  have e : p.getCertificate hi = p.deferRun :=
    getCertificateLoop_of_not_mem p hi hi.SupportedProtos h
  rw [e]
  refine ⟨rfl, rfl, rfl, ?_⟩
  intro token domain hm
  simp [alpnCertProvider.deferRun] at hm

/-- The test "without ALPN challenge" of `TestGetCertificate`, on a provider whose builder
would succeed. -/
theorem getCertificate_defers_without_acme_tls_witness :
    "acme-tls/1" ∉ ["http/1.1"] ∧
      (echoProvider.getCertificate ⟨"example.com", ["http/1.1"]⟩).outcome
        = .returned (none, none) ∧
      (echoProvider.getCertificate ⟨"example.com", ["http/1.1"]⟩).events = [] :=
  have h : "acme-tls/1" ∉ (ClientHelloInfo.mk "example.com" ["http/1.1"]).SupportedProtos := by
    decide
  ⟨h, (getCertificate_defers_without_acme_tls echoProvider ⟨"example.com", ["http/1.1"]⟩ h).1,
    (getCertificate_defers_without_acme_tls echoProvider ⟨"example.com", ["http/1.1"]⟩ h).2.1⟩

/-- C4. When "acme-tls/1" is offered, `getCertificate` never returns the defer signal (nil
certificate, nil error). If the builder succeeds on the client of the provider, the result is
the certificate of the builder with a nil error; if the builder fails, the result is a nil
certificate with an error that wraps the error of the builder and whose message is
"failed to create ALPN-01 challenge certificate: " followed by the message of that error. -/
theorem getCertificate_offered_never_defers (p : alpnCertProvider) (hi : ClientHelloInfo)
    (h : "acme-tls/1" ∈ hi.SupportedProtos) :
    (p.getCertificate hi).outcome ≠ .returned (none, none) ∧
      (∀ c cert, p.acmeClient = some c →
        c.TLSALPN01ChallengeCert "challenge-token-placeholder" hi.ServerName = .ok cert →
        (p.getCertificate hi).outcome = .returned (some cert, none)) ∧
      (∀ c err, p.acmeClient = some c →
        c.TLSALPN01ChallengeCert "challenge-token-placeholder" hi.ServerName = .error err →
        ∃ e : GoError, (p.getCertificate hi).outcome = .returned (none, some e) ∧
          e.Unwrap = some err ∧
          e.Error = "failed to create ALPN-01 challenge certificate: " ++ err.Error) := by
  have e : p.getCertificate hi = p.challengeRun hi :=
    getCertificateLoop_of_mem p hi hi.SupportedProtos h
  rw [e]
  refine ⟨?_, ?_, ?_⟩
  · simp only [alpnCertProvider.challengeRun]
    cases hc : p.acmeClient with
    | none => rw [createChallengeCert_of_nil p _ hc]; simp
    | some c =>
      cases hb : c.TLSALPN01ChallengeCert "challenge-token-placeholder" hi.ServerName with
      | error err => rw [createChallengeCert_of_error p c _ err hc hb]; simp
      | ok cert => rw [createChallengeCert_of_ok p c _ cert hc hb]; simp
  · intro c cert hc hb
    simp only [alpnCertProvider.challengeRun, createChallengeCert_of_ok p c _ cert hc hb]
  · intro c err hc hb
    refine ⟨.fmtErrorf "failed to create ALPN-01 challenge certificate: " err, ?_, rfl, rfl⟩
    simp only [alpnCertProvider.challengeRun, createChallengeCert_of_error p c _ err hc hb]

/-- The test "with ALPN challenge" of `TestGetCertificate`, on a provider whose builder
fails: an error and no certificate. -/
theorem getCertificate_offered_never_defers_witness :
    "acme-tls/1" ∈ ["acme-tls/1"] ∧
      (failingProvider.getCertificate ⟨"example.com", ["acme-tls/1"]⟩).outcome
        ≠ .returned (none, none) ∧
      ∃ e : GoError,
        (failingProvider.getCertificate ⟨"example.com", ["acme-tls/1"]⟩).outcome
          = .returned (none, some e) ∧
        e.Unwrap = some (.errorsNew "acme: missing account key") ∧
        e.Error = "failed to create ALPN-01 challenge certificate: "
          ++ "acme: missing account key" :=
  have h : "acme-tls/1" ∈ (ClientHelloInfo.mk "example.com" ["acme-tls/1"]).SupportedProtos := by
    decide
  ⟨h, (getCertificate_offered_never_defers failingProvider ⟨"example.com", ["acme-tls/1"]⟩ h).1,
    (getCertificate_offered_never_defers failingProvider ⟨"example.com", ["acme-tls/1"]⟩ h).2.2
      failingClient (.errorsNew "acme: missing account key") rfl rfl⟩

/-- C8. `getCertificate` is a read: on every branch (defer, certificate served, error, and
also when the call panics on a nil client) the provider after the call is the provider before
the call, with all four fields, so a later call with the same ClientHello runs on the same
provider and gives the same run. -/
theorem getCertificate_leaves_provider (p : alpnCertProvider) (hi : ClientHelloInfo) :
    (p.getCertificate hi).provider = p ∧
      (p.getCertificate hi).provider.acmeClient = p.acmeClient ∧
      (p.getCertificate hi).provider.domain = p.domain ∧
      (p.getCertificate hi).provider.keyAuth = p.keyAuth ∧
      (p.getCertificate hi).provider.challenge = p.challenge ∧
      (p.getCertificate hi).provider.getCertificate hi = p.getCertificate hi := by
  have key : (p.getCertificate hi).provider = p := by
    by_cases h : "acme-tls/1" ∈ hi.SupportedProtos
    · have e : p.getCertificate hi = p.challengeRun hi :=
        getCertificateLoop_of_mem p hi hi.SupportedProtos h
      rw [e]
      exact createChallengeCert_provider p hi.ServerName
    · have e : p.getCertificate hi = p.deferRun :=
        getCertificateLoop_of_not_mem p hi hi.SupportedProtos h
      rw [e]
      rfl
  refine ⟨key, ?_, ?_, ?_, ?_, ?_⟩ <;> rw [key]

/-- C9. `getCertificate` reads the offered protocols as a set and matches "acme-tls/1" by
exact equality: two protocol lists that agree on whether they contain "acme-tls/1" give the
same run for the same provider and server name, whatever the position of "acme-tls/1", its
repetitions and the other entries; the builder is called at most once per call; and a list
none of whose entries is exactly "acme-tls/1", such as one made of "ACME-TLS/1" and
"acme-tls/1 ", does not select the challenge branch. The challenge branch is the one that
makes outside calls: the run has events exactly when "acme-tls/1" is in the list. -/
theorem getCertificate_protos_as_set (p : alpnCertProvider) (serverName : String) :
    (∀ protos₁ protos₂ : List String,
        ("acme-tls/1" ∈ protos₁ ↔ "acme-tls/1" ∈ protos₂) →
        p.getCertificate ⟨serverName, protos₁⟩ = p.getCertificate ⟨serverName, protos₂⟩) ∧
      p.getCertificate ⟨serverName, ["h2", "acme-tls/1", "acme-tls/1"]⟩
        = p.getCertificate ⟨serverName, ["acme-tls/1"]⟩ ∧
      (∀ protos : List String,
        builderCalls (p.getCertificate ⟨serverName, protos⟩).events ≤ 1) ∧
      (∀ protos : List String, (∀ proto ∈ protos, proto ≠ "acme-tls/1") →
        p.getCertificate ⟨serverName, protos⟩ = p.deferRun) ∧
      p.getCertificate ⟨serverName, ["ACME-TLS/1", "acme-tls/1 "]⟩ = p.deferRun ∧
      (∀ protos : List String,
        "acme-tls/1" ∈ protos ↔ (p.getCertificate ⟨serverName, protos⟩).events ≠ []) := by
  have hset : ∀ protos₁ protos₂ : List String,
      ("acme-tls/1" ∈ protos₁ ↔ "acme-tls/1" ∈ protos₂) →
      p.getCertificate ⟨serverName, protos₁⟩ = p.getCertificate ⟨serverName, protos₂⟩ := by
    intro protos₁ protos₂ hiff
    by_cases h : "acme-tls/1" ∈ protos₁
    · have e₁ := getCertificateLoop_of_mem p ⟨serverName, protos₁⟩ protos₁ h
      have e₂ := getCertificateLoop_of_mem p ⟨serverName, protos₂⟩ protos₂ (hiff.mp h)
      show p.getCertificateLoop _ protos₁ = p.getCertificateLoop _ protos₂
      rw [e₁, e₂]
      rfl
    · have h₂ : "acme-tls/1" ∉ protos₂ := fun m => h (hiff.mpr m)
      have e₁ := getCertificateLoop_of_not_mem p ⟨serverName, protos₁⟩ protos₁ h
      have e₂ := getCertificateLoop_of_not_mem p ⟨serverName, protos₂⟩ protos₂ h₂
      show p.getCertificateLoop _ protos₁ = p.getCertificateLoop _ protos₂
      rw [e₁, e₂]
  have hdefer : ∀ protos : List String, (∀ proto ∈ protos, proto ≠ "acme-tls/1") →
      p.getCertificate ⟨serverName, protos⟩ = p.deferRun := by
    intro protos hall
    exact getCertificateLoop_of_not_mem p ⟨serverName, protos⟩ protos
      (fun m => hall _ m rfl)
  refine ⟨hset, ?_, ?_, hdefer, ?_, ?_⟩
  · exact hset _ _ (by decide)
  · intro protos
    by_cases h : "acme-tls/1" ∈ protos
    · have e : p.getCertificate ⟨serverName, protos⟩ = p.challengeRun ⟨serverName, protos⟩ :=
        getCertificateLoop_of_mem p ⟨serverName, protos⟩ protos h
      rw [e]
      simp only [alpnCertProvider.challengeRun]
      cases hc : p.acmeClient with
      | none =>
        rw [createChallengeCert_of_nil p _ hc]
        simp [builderCalls, Event.isBuilderCall]
      | some c =>
        cases hb : c.TLSALPN01ChallengeCert "challenge-token-placeholder" serverName with
        | error err =>
          rw [createChallengeCert_of_error p c _ err hc hb]
          simp [builderCalls, Event.isBuilderCall]
        | ok cert =>
          rw [createChallengeCert_of_ok p c _ cert hc hb]
          simp [builderCalls, Event.isBuilderCall]
    · have e : p.getCertificate ⟨serverName, protos⟩ = p.deferRun :=
        getCertificateLoop_of_not_mem p ⟨serverName, protos⟩ protos h
      rw [e]
      simp [builderCalls, alpnCertProvider.deferRun]
  · exact hdefer _ (by decide)
  · intro protos
    constructor
    · intro h
      have e : p.getCertificate ⟨serverName, protos⟩ = p.challengeRun ⟨serverName, protos⟩ :=
        getCertificateLoop_of_mem p ⟨serverName, protos⟩ protos h
      rw [e]
      simp [alpnCertProvider.challengeRun]
    · intro hne
      by_contra h
      have e : p.getCertificate ⟨serverName, protos⟩ = p.deferRun :=
        getCertificateLoop_of_not_mem p ⟨serverName, protos⟩ protos h
      rw [e] at hne
      exact hne rfl

/-- A list with other entries, "acme-tls/1" in the middle and repeated, gives on the test
provider the run of the one-entry list: one log line and one builder call. -/
theorem getCertificate_protos_as_set_witness :
    ("acme-tls/1" ∈ ["h2", "acme-tls/1", "http/1.1", "acme-tls/1"] ↔
        "acme-tls/1" ∈ ["acme-tls/1"]) ∧
      echoProvider.getCertificate ⟨"example.com", ["h2", "acme-tls/1", "http/1.1", "acme-tls/1"]⟩
        = echoProvider.getCertificate ⟨"example.com", ["acme-tls/1"]⟩ :=
  have h : ("acme-tls/1" ∈ ["h2", "acme-tls/1", "http/1.1", "acme-tls/1"] ↔
      "acme-tls/1" ∈ ["acme-tls/1"]) := by decide
  ⟨h, (getCertificate_protos_as_set echoProvider "example.com").1 _ _ h⟩

/-! ## The constructor and the TLS configuration -/

/-- C6. `NewALPNCertProvider` returns an error and a nil provider exactly when the client is
nil, the domain is empty or the key authorization is empty. The checks run in that order: the
error is "acme client is required", "domain is required" or "keyAuth is required" for the
first condition that fails. In every other case the error is nil and the provider holds
exactly the three arguments in `acmeClient`, `domain` and `keyAuth`, with a nil `challenge`. -/
theorem NewALPNCertProvider_result (acmeClient : Option Client) (domain keyAuth : String) :
    (((NewALPNCertProvider acmeClient domain keyAuth).2 ≠ none ∧
        (NewALPNCertProvider acmeClient domain keyAuth).1 = none) ↔
      (acmeClient = none ∨ domain = "" ∨ keyAuth = "")) ∧
    (acmeClient = none →
      NewALPNCertProvider acmeClient domain keyAuth
        = (none, some (.errorsNew "acme client is required"))) ∧
    (acmeClient ≠ none → domain = "" →
      NewALPNCertProvider acmeClient domain keyAuth
        = (none, some (.errorsNew "domain is required"))) ∧
    (acmeClient ≠ none → domain ≠ "" → keyAuth = "" →
      NewALPNCertProvider acmeClient domain keyAuth
        = (none, some (.errorsNew "keyAuth is required"))) ∧
    (acmeClient ≠ none → domain ≠ "" → keyAuth ≠ "" →
      NewALPNCertProvider acmeClient domain keyAuth
        = (some { acmeClient := acmeClient, domain := domain, keyAuth := keyAuth,
                  challenge := none }, none)) ∧
    (∀ text, (GoError.errorsNew text).Error = text) := by
  unfold NewALPNCertProvider
  cases acmeClient with
  | none => simp [GoError.Error]
  | some c =>
    by_cases hd : domain = ""
    · simp [hd, GoError.Error]
    · by_cases hk : keyAuth = ""
      · simp [hd, hk, GoError.Error]
      · simp [hd, hk, GoError.Error]

/-- The calls of `TestALPNCertProviderErrors` and `TestALPNCertProvider`, with the messages
of the three errors and the fields of the provider that is built. -/
theorem NewALPNCertProvider_result_witness :
    (NewALPNCertProvider none "example.com" "test-key-auth"
        = (none, some (.errorsNew "acme client is required"))) ∧
      (NewALPNCertProvider none "" "" = (none, some (.errorsNew "acme client is required"))) ∧
      (NewALPNCertProvider (some echoClient) "" ""
        = (none, some (.errorsNew "domain is required"))) ∧
      (NewALPNCertProvider (some echoClient) "example.com" ""
        = (none, some (.errorsNew "keyAuth is required"))) ∧
      (NewALPNCertProvider (some echoClient) "example.com" "test-key-auth"
        = (some echoProvider, none)) :=
  ⟨(NewALPNCertProvider_result none "example.com" "test-key-auth").2.1 rfl,
    (NewALPNCertProvider_result none "" "").2.1 rfl,
    (NewALPNCertProvider_result (some echoClient) "" "").2.2.1 (by simp) rfl,
    (NewALPNCertProvider_result (some echoClient) "example.com" "").2.2.2.1 (by simp)
      (by decide) rfl,
    (NewALPNCertProvider_result (some echoClient) "example.com" "test-key-auth").2.2.2.2.1
      (by simp) (by decide) (by decide)⟩

/-- C7. `TLSConfig` returns a non-nil configuration; its `NextProtos` is exactly
"http/1.1" then "acme-tls/1", so it contains "acme-tls/1"; its `GetCertificate` callback is
set and is the `getCertificate` of the provider: on every ClientHello the callback gives the
run that `getCertificate` gives. -/
theorem TLSConfig_result (p : alpnCertProvider) :
    ∃ config : Config, p.TLSConfig = some config ∧
      config.NextProtos = ["http/1.1", "acme-tls/1"] ∧
      "acme-tls/1" ∈ config.NextProtos ∧
      ∃ callback, config.GetCertificate = some callback ∧
        ∀ hi : ClientHelloInfo, callback hi = p.getCertificate hi :=
  ⟨{ NextProtos := ["http/1.1", "acme-tls/1"], GetCertificate := some p.getCertificate },
    rfl, rfl, List.mem_cons_of_mem _ (List.mem_singleton.mpr rfl), p.getCertificate, rfl,
    fun _ => rfl⟩

/-! ## The HTTP handler -/

/-- C10. The handler built by `HTTPHandler` answers with `http.Error` of the message
"ALPN-01 challenge only" and status 404, without calling the fallback, exactly when the path
of the request starts with "/.well-known/acme-challenge/"; the path
"/.well-known/acme-challenge" without the last slash is not such a path. For every other path
it calls the fallback exactly once, with the writer and the request it was given, and the
writer is left as the fallback leaves it. -/
theorem HTTPHandler_serves (p : alpnCertProvider) (fallback : Handler) (w : ResponseWriter)
    (r : Request) :
    (stringsHasPrefix r.URL.Path "/.well-known/acme-challenge/" = true →
        (p.HTTPHandler fallback).ServeHTTP w r = w ++ [.httpError "ALPN-01 challenge only" 404] ∧
        (p.HTTPHandlerFunc fallback w r).fallbackCalls = []) ∧
      (stringsHasPrefix r.URL.Path "/.well-known/acme-challenge/" = false →
        (p.HTTPHandler fallback).ServeHTTP w r = fallback.ServeHTTP w r ∧
        (p.HTTPHandlerFunc fallback w r).fallbackCalls = [(w, r)]) ∧
      (stringsHasPrefix r.URL.Path "/.well-known/acme-challenge/" = true ↔
        ∃ rest : List Char,
          r.URL.Path.data = "/.well-known/acme-challenge/".data ++ rest) ∧
      stringsHasPrefix "/.well-known/acme-challenge" "/.well-known/acme-challenge/" = false := by
  refine ⟨?_, ?_, ?_, by decide⟩
  · intro h
    simp [alpnCertProvider.HTTPHandler, alpnCertProvider.HTTPHandlerFunc, h, StatusNotFound]
  · intro h
    simp [alpnCertProvider.HTTPHandler, alpnCertProvider.HTTPHandlerFunc, h]
  · simp only [stringsHasPrefix, List.isPrefixOf_iff_prefix]
    constructor
    · rintro ⟨rest, hrest⟩
      exact ⟨rest, hrest.symm⟩
    · rintro ⟨rest, hrest⟩
      exact ⟨rest, hrest.symm⟩

/-- A challenge path is answered by the handler itself and the fallback page is not
written; the path without the last slash and the root path go to the fallback. -/
theorem HTTPHandler_serves_witness :
    (stringsHasPrefix "/.well-known/acme-challenge/tok" "/.well-known/acme-challenge/" = true ∧
      (echoProvider.HTTPHandler pageHandler).ServeHTTP []
          ⟨"GET", ⟨"/.well-known/acme-challenge/tok"⟩⟩
        = [.httpError "ALPN-01 challenge only" 404] ∧
      (echoProvider.HTTPHandlerFunc pageHandler []
          ⟨"GET", ⟨"/.well-known/acme-challenge/tok"⟩⟩).fallbackCalls = []) ∧
    (stringsHasPrefix "/.well-known/acme-challenge" "/.well-known/acme-challenge/" = false ∧
      (echoProvider.HTTPHandler pageHandler).ServeHTTP []
          ⟨"GET", ⟨"/.well-known/acme-challenge"⟩⟩
        = pageHandler.ServeHTTP [] ⟨"GET", ⟨"/.well-known/acme-challenge"⟩⟩ ∧
      (echoProvider.HTTPHandlerFunc pageHandler []
          ⟨"GET", ⟨"/.well-known/acme-challenge"⟩⟩).fallbackCalls
        = [([], ⟨"GET", ⟨"/.well-known/acme-challenge"⟩⟩)]) :=
  have h₁ : stringsHasPrefix
      (Request.mk "GET" ⟨"/.well-known/acme-challenge/tok"⟩).URL.Path
      "/.well-known/acme-challenge/" = true := by decide
  have h₂ : stringsHasPrefix
      (Request.mk "GET" ⟨"/.well-known/acme-challenge"⟩).URL.Path
      "/.well-known/acme-challenge/" = false := by decide
  ⟨⟨h₁, (HTTPHandler_serves echoProvider pageHandler []
        ⟨"GET", ⟨"/.well-known/acme-challenge/tok"⟩⟩).1 h₁⟩,
    ⟨h₂, (HTTPHandler_serves echoProvider pageHandler []
        ⟨"GET", ⟨"/.well-known/acme-challenge"⟩⟩).2.1 h₂⟩⟩

/-! ## What the challenge branch gives to the builder -/

/-- C2, as stated, fails on the provider of the tests. The provider is created for
"example.com" with key authorization "test-key-auth"; on the ClientHello of the tests the
builder is called with the token "challenge-token-placeholder" and "example.com", never with
"test-key-auth", and the certificate returned is the one built from the placeholder, not the
one the builder makes from "test-key-auth". -/
theorem getCertificate_keyAuth_not_passed :
    NewALPNCertProvider (some echoClient) "example.com" "test-key-auth"
        = (some echoProvider, none) ∧
      (echoProvider.getCertificate ⟨"example.com", ["acme-tls/1"]⟩).events
        = [.logPrintf "ALPN-01 challenge detected for domain: example.com",
           .TLSALPN01ChallengeCert "challenge-token-placeholder" "example.com"] ∧
      Event.TLSALPN01ChallengeCert "test-key-auth" "example.com"
        ∉ (echoProvider.getCertificate ⟨"example.com", ["acme-tls/1"]⟩).events ∧
      echoClient.TLSALPN01ChallengeCert "test-key-auth" "example.com"
        = .ok ⟨[codes "test-key-auth", codes "example.com"]⟩ ∧
      (echoProvider.getCertificate ⟨"example.com", ["acme-tls/1"]⟩).outcome
        ≠ .returned (some ⟨[codes "test-key-auth", codes "example.com"]⟩, none) ∧
      (echoProvider.getCertificate ⟨"example.com", ["acme-tls/1"]⟩).outcome
        = .returned (some ⟨[codes "challenge-token-placeholder", codes "example.com"]⟩, none) := by
  refine ⟨rfl, ?_, ?_, rfl, ?_, ?_⟩
  · decide
  · decide
  · decide
  · decide

/-- C2, amended. For a provider created for domain `D` with key authorization `K`,
`getCertificate` on the ClientHello with protocols "acme-tls/1" and server name `D` logs the
detection and calls the builder exactly once, with the fixed token
"challenge-token-placeholder" and `D`; the result is what the builder returns for that token
and `D`, and `K` is not consulted: a provider created with any other key authorization gives
the same outcome and the same calls. -/
theorem getCertificate_builds_from_placeholder (c : Client) (D K : String)
    (p : alpnCertProvider) (hp : NewALPNCertProvider (some c) D K = (some p, none)) :
    (p.getCertificate ⟨D, ["acme-tls/1"]⟩).events
        = [.logPrintf ("ALPN-01 challenge detected for domain: " ++ D),
           .TLSALPN01ChallengeCert "challenge-token-placeholder" D] ∧
      builderCalls (p.getCertificate ⟨D, ["acme-tls/1"]⟩).events = 1 ∧
      (∀ cert, c.TLSALPN01ChallengeCert "challenge-token-placeholder" D = .ok cert →
        (p.getCertificate ⟨D, ["acme-tls/1"]⟩).outcome = .returned (some cert, none)) ∧
      (∀ err, c.TLSALPN01ChallengeCert "challenge-token-placeholder" D = .error err →
        (p.getCertificate ⟨D, ["acme-tls/1"]⟩).outcome = .returned
          (none, some (.fmtErrorf "failed to create ALPN-01 challenge certificate: " err))) ∧
      (∀ (K₂ : String) (p₂ : alpnCertProvider),
        NewALPNCertProvider (some c) D K₂ = (some p₂, none) →
        (p₂.getCertificate ⟨D, ["acme-tls/1"]⟩).outcome
            = (p.getCertificate ⟨D, ["acme-tls/1"]⟩).outcome ∧
          (p₂.getCertificate ⟨D, ["acme-tls/1"]⟩).events
            = (p.getCertificate ⟨D, ["acme-tls/1"]⟩).events) := by
  have client_of : ∀ (K₂ : String) (q : alpnCertProvider),
      NewALPNCertProvider (some c) D K₂ = (some q, none) → q.acmeClient = some c := by
    intro K₂ q hq
    unfold NewALPNCertProvider at hq
    by_cases hd : D = ""
    · simp [hd] at hq
    · by_cases hk : K₂ = ""
      · simp [hd, hk] at hq
      · simp [hd, hk] at hq
        rw [← hq]
  have run_of : ∀ q : alpnCertProvider, q.acmeClient = some c →
      (q.getCertificate ⟨D, ["acme-tls/1"]⟩).events
          = [.logPrintf ("ALPN-01 challenge detected for domain: " ++ D),
             .TLSALPN01ChallengeCert "challenge-token-placeholder" D] ∧
        (∀ cert, c.TLSALPN01ChallengeCert "challenge-token-placeholder" D = .ok cert →
          (q.getCertificate ⟨D, ["acme-tls/1"]⟩).outcome = .returned (some cert, none)) ∧
        (∀ err, c.TLSALPN01ChallengeCert "challenge-token-placeholder" D = .error err →
          (q.getCertificate ⟨D, ["acme-tls/1"]⟩).outcome = .returned
            (none, some (.fmtErrorf "failed to create ALPN-01 challenge certificate: " err))) := by
    intro q hq
    have e : q.getCertificate ⟨D, ["acme-tls/1"]⟩ = q.challengeRun ⟨D, ["acme-tls/1"]⟩ :=
      getCertificateLoop_of_mem q ⟨D, ["acme-tls/1"]⟩ ["acme-tls/1"] (List.mem_singleton.mpr rfl)
    rw [e]
    simp only [alpnCertProvider.challengeRun]
    cases hb : c.TLSALPN01ChallengeCert "challenge-token-placeholder" D with
    | error err => rw [createChallengeCert_of_error q c _ err hq hb]; simp
    | ok cert => rw [createChallengeCert_of_ok q c _ cert hq hb]; simp
  have hpc := client_of K p hp
  obtain ⟨hev, hok, herr⟩ := run_of p hpc
  refine ⟨hev, ?_, hok, herr, ?_⟩
  · rw [hev]
    simp [builderCalls, Event.isBuilderCall]
  · intro K₂ p₂ hp₂
    obtain ⟨hev₂, hok₂, herr₂⟩ := run_of p₂ (client_of K₂ p₂ hp₂)
    refine ⟨?_, by rw [hev₂, hev]⟩
    cases hb : c.TLSALPN01ChallengeCert "challenge-token-placeholder" D with
    | error err => rw [herr₂ err hb, herr err hb]
    | ok cert => rw [hok₂ cert hb, hok cert hb]

/-- The provider of the tests: one builder call on the placeholder token. -/
theorem getCertificate_builds_from_placeholder_witness :
    NewALPNCertProvider (some echoClient) "example.com" "test-key-auth"
        = (some echoProvider, none) ∧
      builderCalls (echoProvider.getCertificate ⟨"example.com", ["acme-tls/1"]⟩).events = 1 :=
  ⟨rfl, (getCertificate_builds_from_placeholder echoClient "example.com" "test-key-auth"
    echoProvider rfl).2.1⟩

/-! ## The server name in the challenge branch -/

/-- C3, as stated, fails on the provider of the tests. Its domain is "example.com"; on a
ClientHello that offers "acme-tls/1" for "other.example.org", a name that is not the domain
of the provider even up to letter case, `getCertificate` returns a certificate and a nil
error: the certificate the builder makes for "other.example.org". -/
theorem getCertificate_serves_other_name :
    echoProvider.domain = "example.com" ∧
      "other.example.org" ≠ echoProvider.domain ∧
      ¬ sameUpToCase "other.example.org" echoProvider.domain ∧
      (echoProvider.getCertificate ⟨"other.example.org", ["acme-tls/1"]⟩).outcome
        = .returned
            (some ⟨[codes "challenge-token-placeholder", codes "other.example.org"]⟩, none) ∧
      (echoProvider.getCertificate ⟨"other.example.org", ["acme-tls/1"]⟩).events
        = [.logPrintf "ALPN-01 challenge detected for domain: other.example.org",
           .TLSALPN01ChallengeCert "challenge-token-placeholder" "other.example.org"] := by
  refine ⟨rfl, ?_, ?_, ?_, ?_⟩
  · decide
  · decide
  · decide
  · decide

/-- C3, amended. For a provider with a client and a ClientHello that offers "acme-tls/1",
whatever the server name is, the domain of the provider or not, `getCertificate` logs the
detection, calls the builder once with the placeholder token and that server name, and
returns what the builder gives for it: the outcome is a certificate `cert` with a nil error
exactly when the builder returns `cert`, and a nil certificate with an error `e` exactly when
the builder fails with some `err` and `e` is `err` wrapped behind
"failed to create ALPN-01 challenge certificate: ". So an error and no certificate come back
exactly when the builder fails for that server name. The fields `domain`, `keyAuth` and
`challenge` play no part: every provider on the same client gives the same outcome and the
same calls. -/
theorem getCertificate_offered_follows_builder (p : alpnCertProvider) (c : Client)
    (hi : ClientHelloInfo) (hc : p.acmeClient = some c)
    (h : "acme-tls/1" ∈ hi.SupportedProtos) :
    (p.getCertificate hi).events
        = [.logPrintf ("ALPN-01 challenge detected for domain: " ++ hi.ServerName),
           .TLSALPN01ChallengeCert "challenge-token-placeholder" hi.ServerName] ∧
      (∀ cert : Certificate,
        (p.getCertificate hi).outcome = .returned (some cert, none) ↔
          c.TLSALPN01ChallengeCert "challenge-token-placeholder" hi.ServerName = .ok cert) ∧
      (∀ e : GoError,
        (p.getCertificate hi).outcome = .returned (none, some e) ↔
          ∃ err, c.TLSALPN01ChallengeCert "challenge-token-placeholder" hi.ServerName
              = .error err ∧
            e = .fmtErrorf "failed to create ALPN-01 challenge certificate: " err) ∧
      ((∃ e : GoError, (p.getCertificate hi).outcome = .returned (none, some e)) ↔
        ∃ err, c.TLSALPN01ChallengeCert "challenge-token-placeholder" hi.ServerName
          = .error err) ∧
      ((∃ cert : Certificate, (p.getCertificate hi).outcome = .returned (some cert, none)) ↔
        ∃ cert, c.TLSALPN01ChallengeCert "challenge-token-placeholder" hi.ServerName
          = .ok cert) ∧
      (∀ q : alpnCertProvider, q.acmeClient = some c →
        (q.getCertificate hi).outcome = (p.getCertificate hi).outcome ∧
          (q.getCertificate hi).events = (p.getCertificate hi).events) := by
  have run_of : ∀ q : alpnCertProvider, q.acmeClient = some c →
      (q.getCertificate hi).events
          = [.logPrintf ("ALPN-01 challenge detected for domain: " ++ hi.ServerName),
             .TLSALPN01ChallengeCert "challenge-token-placeholder" hi.ServerName] ∧
        (q.getCertificate hi).outcome =
          match c.TLSALPN01ChallengeCert "challenge-token-placeholder" hi.ServerName with
          | .ok cert => .returned (some cert, none)
          | .error err => .returned
              (none, some (.fmtErrorf "failed to create ALPN-01 challenge certificate: " err)) := by
    intro q hq
    have e : q.getCertificate hi = q.challengeRun hi :=
      getCertificateLoop_of_mem q hi hi.SupportedProtos h
    rw [e]
    simp only [alpnCertProvider.challengeRun]
    cases hb : c.TLSALPN01ChallengeCert "challenge-token-placeholder" hi.ServerName with
    | error err => rw [createChallengeCert_of_error q c _ err hq hb]; simp
    | ok cert => rw [createChallengeCert_of_ok q c _ cert hq hb]; simp
  obtain ⟨hev, hout⟩ := run_of p hc
  refine ⟨hev, ?_, ?_, ?_, ?_, ?_⟩
  · intro cert
    rw [hout]
    cases c.TLSALPN01ChallengeCert "challenge-token-placeholder" hi.ServerName with
    | error err => simp
    | ok cert₂ =>
      simp only [Outcome.returned.injEq, Prod.mk.injEq, Option.some.injEq, and_true,
        Except.ok.injEq]
  · intro e
    rw [hout]
    cases c.TLSALPN01ChallengeCert "challenge-token-placeholder" hi.ServerName with
    | error err =>
      simp only [Outcome.returned.injEq, Prod.mk.injEq, Option.some.injEq, true_and,
        Except.error.injEq]
      constructor
      · intro he
        exact ⟨err, rfl, he.symm⟩
      · rintro ⟨err₂, h₁, h₂⟩
        rw [h₂, h₁]
    | ok cert => simp
  · rw [hout]
    cases c.TLSALPN01ChallengeCert "challenge-token-placeholder" hi.ServerName with
    | error err => simp
    | ok cert => simp
  · rw [hout]
    cases c.TLSALPN01ChallengeCert "challenge-token-placeholder" hi.ServerName with
    | error err => simp
    | ok cert => simp
  · intro q hq
    obtain ⟨hev₂, hout₂⟩ := run_of q hq
    exact ⟨by rw [hout₂, hout], by rw [hev₂, hev]⟩

/-- The provider for "example.com" on the client whose builder succeeds, asked for
"unarmed.example.net": the builder is called for that name and its certificate, the one that
spells out the placeholder token and "unarmed.example.net", is returned with a nil error. On
the client whose builder fails the same ClientHello gives the wrapped error of the builder
and no certificate. -/
theorem getCertificate_offered_follows_builder_witness :
    echoProvider.acmeClient = some echoClient ∧
      failingProvider.acmeClient = some failingClient ∧
      "acme-tls/1" ∈ ["h2", "acme-tls/1"] ∧
      "unarmed.example.net" ≠ echoProvider.domain ∧
      (echoProvider.getCertificate ⟨"unarmed.example.net", ["h2", "acme-tls/1"]⟩).events
        = [.logPrintf ("ALPN-01 challenge detected for domain: " ++ "unarmed.example.net"),
           .TLSALPN01ChallengeCert "challenge-token-placeholder" "unarmed.example.net"] ∧
      (echoProvider.getCertificate ⟨"unarmed.example.net", ["h2", "acme-tls/1"]⟩).outcome
        = .returned
            (some ⟨[codes "challenge-token-placeholder", codes "unarmed.example.net"]⟩,
              none) ∧
      (failingProvider.getCertificate ⟨"unarmed.example.net", ["h2", "acme-tls/1"]⟩).outcome
        = .returned
            (none, some (.fmtErrorf "failed to create ALPN-01 challenge certificate: "
              (.errorsNew "acme: missing account key"))) :=
  have h : "acme-tls/1"
      ∈ (ClientHelloInfo.mk "unarmed.example.net" ["h2", "acme-tls/1"]).SupportedProtos := by
    decide
  ⟨rfl, rfl, h, by decide,
    (getCertificate_offered_follows_builder echoProvider echoClient
      ⟨"unarmed.example.net", ["h2", "acme-tls/1"]⟩ rfl h).1,
    ((getCertificate_offered_follows_builder echoProvider echoClient
      ⟨"unarmed.example.net", ["h2", "acme-tls/1"]⟩ rfl h).2.1 _).mpr rfl,
    ((getCertificate_offered_follows_builder failingProvider failingClient
      ⟨"unarmed.example.net", ["h2", "acme-tls/1"]⟩ rfl h).2.2.1 _).mpr
      ⟨.errorsNew "acme: missing account key", rfl, rfl⟩⟩

/-- C5, as stated, fails on the provider of the tests. "Example.com" and "example.com"
differ only in letter case, yet the two ClientHellos that offer "acme-tls/1" for them give
different outcomes: each certificate is built for the name as it is spelled. -/
theorem getCertificate_name_case_kept :
    sameUpToCase "Example.com" "example.com" ∧
      (echoProvider.getCertificate ⟨"Example.com", ["acme-tls/1"]⟩).outcome
        ≠ (echoProvider.getCertificate ⟨"example.com", ["acme-tls/1"]⟩).outcome ∧
      (echoProvider.getCertificate ⟨"Example.com", ["acme-tls/1"]⟩).outcome
        = .returned (some ⟨[codes "challenge-token-placeholder", codes "Example.com"]⟩, none) ∧
      (echoProvider.getCertificate ⟨"example.com", ["acme-tls/1"]⟩).outcome
        = .returned (some ⟨[codes "challenge-token-placeholder", codes "example.com"]⟩, none) := by
  refine ⟨?_, ?_, ?_, ?_⟩
  · decide
  · decide
  · decide
  · decide

/-- C5, amended. For a provider with a client and two ClientHellos that offer "acme-tls/1"
and differ only in the server name, in particular in the letter case of the server name, both
calls take the challenge branch: each logs the detection and calls the builder once, with the
placeholder token and the server name as it is spelled. The two outcomes are the same exactly
when the builder returns the same result for the two spellings; the code folds no case and
compares the server name with nothing. -/
theorem getCertificate_name_passed_verbatim (p : alpnCertProvider) (c : Client)
    (protos : List String) (a b : String) (hc : p.acmeClient = some c)
    (h : "acme-tls/1" ∈ protos) :
    (p.getCertificate ⟨a, protos⟩).events
        = [.logPrintf ("ALPN-01 challenge detected for domain: " ++ a),
           .TLSALPN01ChallengeCert "challenge-token-placeholder" a] ∧
      (p.getCertificate ⟨b, protos⟩).events
        = [.logPrintf ("ALPN-01 challenge detected for domain: " ++ b),
           .TLSALPN01ChallengeCert "challenge-token-placeholder" b] ∧
      ((p.getCertificate ⟨a, protos⟩).outcome = (p.getCertificate ⟨b, protos⟩).outcome ↔
        c.TLSALPN01ChallengeCert "challenge-token-placeholder" a
          = c.TLSALPN01ChallengeCert "challenge-token-placeholder" b) := by
  have run_of : ∀ name : String,
      (p.getCertificate ⟨name, protos⟩).events
          = [.logPrintf ("ALPN-01 challenge detected for domain: " ++ name),
             .TLSALPN01ChallengeCert "challenge-token-placeholder" name] ∧
        (p.getCertificate ⟨name, protos⟩).outcome =
          match c.TLSALPN01ChallengeCert "challenge-token-placeholder" name with
          | .ok cert => .returned (some cert, none)
          | .error err => .returned
              (none, some (.fmtErrorf "failed to create ALPN-01 challenge certificate: " err)) := by
    intro name
    have e : p.getCertificate ⟨name, protos⟩ = p.challengeRun ⟨name, protos⟩ :=
      getCertificateLoop_of_mem p ⟨name, protos⟩ protos h
    rw [e]
    simp only [alpnCertProvider.challengeRun]
    cases hb : c.TLSALPN01ChallengeCert "challenge-token-placeholder" name with
    | error err => rw [createChallengeCert_of_error p c _ err hc hb]; simp
    | ok cert => rw [createChallengeCert_of_ok p c _ cert hc hb]; simp
  refine ⟨(run_of a).1, (run_of b).1, ?_⟩
  rw [(run_of a).2, (run_of b).2]
  cases c.TLSALPN01ChallengeCert "challenge-token-placeholder" a with
  | error ea =>
    cases c.TLSALPN01ChallengeCert "challenge-token-placeholder" b with
    | error eb => simp
    | ok cb => simp
  | ok ca =>
    cases c.TLSALPN01ChallengeCert "challenge-token-placeholder" b with
    | error eb => simp
    | ok cb => simp

/-- On the failing client, whose builder gives the same error for every name, the two
spellings give the same outcome. -/
theorem getCertificate_name_passed_verbatim_witness :
    failingProvider.acmeClient = some failingClient ∧
      "acme-tls/1" ∈ ["acme-tls/1"] ∧
      (failingProvider.getCertificate ⟨"Example.com", ["acme-tls/1"]⟩).outcome
        = (failingProvider.getCertificate ⟨"example.com", ["acme-tls/1"]⟩).outcome :=
  have h : "acme-tls/1" ∈ ["acme-tls/1"] := by decide
  ⟨rfl, h, (getCertificate_name_passed_verbatim failingProvider failingClient ["acme-tls/1"]
    "Example.com" "example.com" rfl h).2.2.mpr rfl⟩

end Alpn
